import Mathlib

/-!
Verification of the `omnivers3/gateway` core: the `ServiceResult` outcome
model and its conversion to a two-armed result (`src/lib.rs`), the
`replace_host` authority rewriter (`src/lib.rs`), and the sample error
payload shapes `Message` / `ErrorContext` / `Message2`
(`src/contracts/v1/mod.rs`).

`replace_host` is written against the `url` crate (rust-url, 1.x line —
the `extern crate` / `mockito::server_url()` era of this code).  We embed
the slice of `url::Url` that `replace_host` touches as a record of the
observable components (`scheme()`, `host()`, `port()`, `path()`,
`query()`, `cannot_be_a_base()`) together with the three setters
`set_host`, `set_scheme` and `set_port`, modelled on their behaviour in
rust-url 1.7:

* hosts are modelled by their serialization (the `format!("{}", host)`
  string): re-parsing the serialization of a host that came out of a
  parsed URL is the identity, which is the only way `replace_host`
  produces host strings; a URL with an empty host serializes the host as
  absent, so the `host()` accessor never yields `some ""` on a URL the
  crate can build, and `Url.wf` below records that;
* `set_host(Some(h))` fails on cannot-be-a-base URLs
  (`SetHostOnCannotBeABaseUrl`) and on an empty host for a special
  scheme (`EmptyHost`), otherwise stores the host;
* `set_scheme(s)` fails when `s` is not a syntactically valid scheme or
  when the URL has no host while `s` is a special scheme; rust-url 1.x
  performs no default-port fixup on a scheme change;
* `set_port(Some(p))` fails when the URL has no host or its scheme is
  `file`; a port equal to the (new) scheme's default is stored as none;
* `port()` on a freshly parsed URL is `none` whenever the written port
  is the scheme's default: the parser drops default ports
  (`parse_port` below models that step).

The Rust `replace_host` can exit in three ways: return `Ok(url)`,
return `Err(parse_error)` (the `?` on `set_host`), or panic (the
`.unwrap()` on `set_scheme`).  `RunResult` makes the panic outcome a
value of the model.
-/

namespace Gateway

/-- The special schemes of rust-url 1.x (`SchemeType::is_special`). -/
def is_special (s : String) : Bool :=
  s = "http" || s = "https" || s = "ws" || s = "wss" || s = "ftp" ||
  s = "gopher" || s = "file"

/-- Default ports of the special schemes (`parser::default_port`). -/
def default_port (s : String) : Option Nat :=
  if s = "http" || s = "ws" then some 80
  else if s = "https" || s = "wss" then some 443
  else if s = "ftp" then some 21
  else if s = "gopher" then some 70
  else none

/-- A scheme is `[a-zA-Z][a-zA-Z0-9+.-]*` (`Parser::parse_scheme`). -/
def valid_scheme_char (c : Char) : Bool :=
  c.isAlpha || c.isDigit || c = '+' || c = '-' || c = '.'

def valid_scheme (s : String) : Bool :=
  match s.data with
  | [] => false
  | c :: rest => c.isAlpha && rest.all valid_scheme_char

/-- The `url::ParseError` values the modelled setters can produce. -/
inductive ParseError where
  | EmptyHost : ParseError
  | SetHostOnCannotBeABaseUrl : ParseError
deriving Repr, DecidableEq

/-- The observable components of a `url::Url`.  `host = none` covers both a
truly absent host and the empty host, which rust-url normalizes to the
absent representation (`HostInternal::None`), so `host()`/`host_str()`
return `None` for it. -/
structure Url where
  scheme : String
  cannot_be_a_base : Bool
  host : Option String
  port : Option Nat
  path : String
  query : Option String
deriving Repr, DecidableEq

/-- `Url::has_host`. -/
def Url.has_host (u : Url) : Bool := u.host.isSome

/-- `Url::set_host` (rust-url 1.x): rejects cannot-be-a-base URLs; rejects
an empty host when the scheme is special; otherwise stores the host
(re-parsing a serialized host is modelled as the identity). -/
def Url.set_host (u : Url) (host : Option String) : Except ParseError Url :=
  match host with
  | some h =>
      if u.cannot_be_a_base then .error .SetHostOnCannotBeABaseUrl
      else if h = "" ∧ is_special u.scheme then .error .EmptyHost
      else .ok { u with host := some h }
  | none =>
      if u.cannot_be_a_base then .error .SetHostOnCannotBeABaseUrl
      else if u.host ≠ none ∧ is_special u.scheme then .error .EmptyHost
      else .ok { u with host := none }

/-- `Url::set_scheme` (rust-url 1.x): `Err(())` when the new scheme is
syntactically invalid or when the URL has no host and the new scheme is
special; no other adjustment is made (in particular no default-port
fixup, which rust-url only introduced in 2.0). -/
def Url.set_scheme (u : Url) (scheme : String) : Option Url :=
  if valid_scheme scheme then
    if u.host = none ∧ is_special scheme then none
    else some { u with scheme := scheme }
  else none

/-- `Url::set_port` (rust-url 1.x): `Err(())` when the URL has no host or
its scheme is `file`; a port equal to the scheme's default is stored as
`none`. -/
def Url.set_port (u : Url) (port : Option Nat) : Option Url :=
  match port with
  | some p =>
      if u.host = none ∨ u.scheme = "file" then none
      else if default_port u.scheme = some p then some { u with port := none }
      else some { u with port := some p }
  | none =>
      if u.host = none ∨ u.scheme = "file" then none
      else some { u with port := none }

/-- Outcome of running a Rust function that may return a value, return an
error, or panic. -/
inductive RunResult (α : Type) where
  | panicked : RunResult α
  | err : ParseError → RunResult α
  | ok : α → RunResult α
deriving Repr, DecidableEq

/-- The `match dest.host()` block of `replace_host` (src/lib.rs lines
158-165): when `dest` has a host, `format!("{}", host)` is set on `src`
(possibly failing via `?`); when it has none, `src` is untouched. -/
def hostStep (src dest : Url) : Except ParseError Url :=
  match dest.host with
  | none => .ok src
  | some host => src.set_host (some host)

/-- The `dest.port().map(|port| src.set_port(Some(port)))` line of
`replace_host` (src/lib.rs lines 167-169): when `dest` carries an
explicit port it is set on the URL and the `Result` of `set_port` is
discarded, so a failed `set_port` leaves the URL unchanged. -/
def portStep (u dest : Url) : Url :=
  match dest.port with
  | none => u
  | some p =>
      match u.set_port (some p) with
      | none => u
      | some u2 => u2

/-- `replace_host` (src/lib.rs lines 156-171): swap in `dest`'s host (if
any, propagating a `set_host` error with `?`), then
`set_scheme(dest.scheme()).unwrap()` (a panic when `set_scheme` is
rejected), then set `dest`'s explicit port with the result discarded. -/
def replace_host (src dest : Url) : RunResult Url :=
  match hostStep src dest with
  | .error e => .err e
  | .ok s1 =>
      match s1.set_scheme dest.scheme with
      | none => .panicked
      | some s2 => .ok (portStep s2 dest)

/-- The invariants of a `url::Url` produced by `Url::parse` that matter
here: an explicit port implies the URL has a host, is not a `file` URL,
and the port is not the scheme's default (the parser drops default
ports); and the `host()` accessor never reports the empty string (empty
hosts are normalized to the absent representation). -/
def Url.wf (u : Url) : Bool :=
  (match u.port with
   | none => true
   | some p => u.host.isSome && decide (u.scheme ≠ "file") &&
       decide (default_port u.scheme ≠ some p)) &&
  decide (u.host ≠ some "")

/-- The parser's port step (`Parser::parse_port`): a written port equal to
the scheme's default is dropped, so `port()` reports `none` for it. -/
def parse_port (scheme : String) (written : Option Nat) : Option Nat :=
  match written with
  | none => none
  | some p => if default_port scheme = some p then none else some p

/-- A URL assembled from parsed components, applying the parser's
default-port normalization. -/
def parsed_url (scheme : String) (cannot_be_a_base : Bool)
    (host : Option String) (written_port : Option Nat)
    (path : String) (query : Option String) : Url :=
  ⟨scheme, cannot_be_a_base, host, parse_port scheme written_port, path, query⟩

/-- Reference algorithm written from the spec's words (section 4.3): the
three substitutions applied in the order host (only when `dest` has
one), then scheme (always), then port (only when `dest` has an explicit
one), with path and query untouched.  `replace_host` is compared with it
for the refinement claim. -/
def spec_replace_host (src dest : Url) : Url :=
  let s1 := match dest.host with
            | none => src
            | some h => { src with host := some h }
  let s2 := { s1 with scheme := dest.scheme }
  match dest.port with
  | none => s2
  | some p => { s2 with port := some p }

/-! ## The outcome model (src/lib.rs)

The Rust `ServiceResult<TResponse, TServiceError, TErrorSerde>` binds
`TResponse : Endpoint` and uses its two associated types
`TResponse::TResponse` and `TResponse::TError`.  The shallow embedding
flattens the `Endpoint` associated types into two ordinary type
parameters `R` (the response shape) and `E` (the domain-error shape),
keeping the service-error parameter `S` and the
deserialization-error parameter `D`. -/

/-- Rust's `Result`, with its own arm names so the nesting in the
conversion reads like the source. -/
inductive RustResult (T Err : Type) where
  | Ok : T → RustResult T Err
  | Err : Err → RustResult T Err
deriving Repr, DecidableEq

/-- `ServiceResult` (src/lib.rs lines 45-52): `Ok` carries the response,
`Err` a service error plus the parsed domain error, `Fail` a service
error plus an optional deserialization error. -/
inductive ServiceResult (R E S D : Type) where
  | Ok : R → ServiceResult R E S D
  | Err : S → E → ServiceResult R E S D
  | Fail : S → Option D → ServiceResult R E S D
deriving Repr, DecidableEq

/-- The `Into` impl for `ServiceResult` (src/lib.rs lines 62-74):
conversion to
`Result<TResponse::TResponse, (TServiceError, Option<Result<TResponse::TError, TErrorSerde>>)>`. -/
def ServiceResult.into {R E S D : Type} :
    ServiceResult R E S D → RustResult R (S × Option (RustResult E D))
  | .Ok response => .Ok response
  | .Err svc_err err => .Err (svc_err, some (.Ok err))
  | .Fail svc_err opt_serde_err =>
      .Err (svc_err, opt_serde_err.map (fun serde_err => .Err serde_err))

/-- Modelled from the spec: the accessor `server_error()` of section 4.1
is not present in the provided source (src/lib.rs declares only the
enum and the `Into` impl).  Per the spec it "returns a view of the
service-level error, present for all failure variants, absent for
success". -/
def ServiceResult.server_error {R E S D : Type} :
    ServiceResult R E S D → Option S
  | .Ok _ => none
  | .Err svc_err _ => some svc_err
  | .Fail svc_err _ => some svc_err

/-- Modelled from the spec: the accessor `service_error()` of section 4.1
is not present in the provided source.  Per the spec it "returns a view
of the parsed domain error; present only for `Err`, absent for `Ok` and
`Fail`", even when `Fail` carries a deserialization error. -/
def ServiceResult.service_error {R E S D : Type} :
    ServiceResult R E S D → Option E
  | .Ok _ => none
  | .Err _ err => some err
  | .Fail _ _ => none

/-! ## Sample error payload shapes (src/contracts/v1/mod.rs)

The structs `Message`, `ErrorContext` and `Message2` are declared in the
source with `#[derive(Deserialize)]` and a `#[serde(alias="httpStatus")]`
on each `http_status` field.  The wire format is JSON; a document is
embedded as a `Json` value (string, number, object, array — all the
sample shapes need).  The deserializers below model what serde's derive
generates for these declarations: each struct field is filled from the
object entry whose key is the field's name or one of its aliases, a
missing or repeated matching key is an error, entries with unknown keys
are ignored (serde's default), `u16` fields reject numbers at or above
2^16, `HashMap<String, String>` is modelled as the association list of
the object's entries, and `Vec` fields come from arrays elementwise. -/

inductive Json where
  | str : String → Json
  | num : Nat → Json
  | obj : List (String × Json) → Json
  | arr : List Json → Json
deriving Repr

/-- The object entry for a struct field: the entry whose key is one of
`names` (the field name and its serde aliases); zero matching entries
(missing field) or two or more (duplicate field) are errors. -/
def getUnique (fields : List (String × Json)) (names : List String) :
    Option Json :=
  match fields.filter (fun kv => names.contains kv.fst) with
  | [kv] => some kv.snd
  | _ => none

/-- A `u16` field: a JSON number below 2^16. -/
def asU16 : Json → Option Nat
  | .num n => if n < 65536 then some n else none
  | _ => none

def asStr : Json → Option String
  | .str s => some s
  | _ => none

/-- Elementwise sequencing with first-error abort, as serde deserializes
the entries of a sequence or map. -/
def traverseOption {α β : Type} (f : α → Option β) : List α → Option (List β)
  | [] => some []
  | x :: xs => do
      let y ← f x
      let ys ← traverseOption f xs
      some (y :: ys)

/-- A `HashMap<String, String>` field, as the association list of the
object's entries. -/
def asStrMap : Json → Option (List (String × String))
  | .obj fields =>
      traverseOption (fun kv => (asStr kv.snd).map (fun v => (kv.fst, v))) fields
  | _ => none

/-- A `Vec<String>` field. -/
def asStrList : Json → Option (List String)
  | .arr xs => traverseOption asStr xs
  | _ => none

/-- `Message` (src/contracts/v1/mod.rs lines 3-11); `http_status` carries
`#[serde(alias="httpStatus")]`. -/
structure Message where
  http_status : Nat
  timestamp : String
  service : String
  message : String
deriving Repr, DecidableEq

def Message.deserialize (j : Json) : Option Message :=
  match j with
  | .obj fields => do
      let hs ← (getUnique fields ["http_status", "httpStatus"]).bind asU16
      let ts ← (getUnique fields ["timestamp"]).bind asStr
      let sv ← (getUnique fields ["service"]).bind asStr
      let ms ← (getUnique fields ["message"]).bind asStr
      some { http_status := hs, timestamp := ts, service := sv, message := ms }
  | _ => none

/-- `ErrorContext` (src/contracts/v1/mod.rs lines 13-19); `http_status`
carries `#[serde(alias="httpStatus")]`. -/
structure ErrorContext where
  requested : String
  http_status : Nat
  message : String
deriving Repr, DecidableEq

def ErrorContext.deserialize (j : Json) : Option ErrorContext :=
  match j with
  | .obj fields => do
      let rq ← (getUnique fields ["requested"]).bind asStr
      let hs ← (getUnique fields ["http_status", "httpStatus"]).bind asU16
      let ms ← (getUnique fields ["message"]).bind asStr
      some { requested := rq, http_status := hs, message := ms }
  | _ => none

def asErrors (j : Json) : Option (List ErrorContext) :=
  match j with
  | .arr xs => traverseOption ErrorContext.deserialize xs
  | _ => none

/-- `Message2` (src/contracts/v1/mod.rs lines 21-26). -/
structure Message2 where
  pages : List (String × String)
  objects : List String
  errors : List ErrorContext
deriving Repr, DecidableEq

def Message2.deserialize (j : Json) : Option Message2 :=
  match j with
  | .obj fields => do
      let pg ← (getUnique fields ["pages"]).bind asStrMap
      let ob ← (getUnique fields ["objects"]).bind asStrList
      let er ← (getUnique fields ["errors"]).bind asErrors
      some { pages := pg, objects := ob, errors := er }
  | _ => none

/-- The key under which an `http_status` value is written: the alternate
spelling `httpStatus` when `alt` is set, the field name itself
otherwise. -/
def statusKey (alt : Bool) : String :=
  if alt then "httpStatus" else "http_status"

/-- A document of sample shape A (spec section 6), with a chosen spelling
of the status key. -/
def messageDoc (alt : Bool) (status : Nat) (ts sv ms : String) : Json :=
  .obj [(statusKey alt, .num status), ("timestamp", .str ts),
        ("service", .str sv), ("message", .str ms)]

/-- One entry of the `errors` array of sample shape B, with a chosen
spelling of the status key. -/
def errorContextDoc (alt : Bool) (rq : String) (status : Nat) (ms : String) :
    Json :=
  .obj [("requested", .str rq), (statusKey alt, .num status),
        ("message", .str ms)]

/-- The `ErrorContext` an `errorContextDoc` entry denotes. -/
def errorContextOf : Bool × String × Nat × String → ErrorContext
  | (_, rq, status, ms) => ⟨rq, status, ms⟩

/-- A document of sample shape B (spec section 6): a string-to-string
`pages` object, a string `objects` array, and an `errors` array whose
entries each pick a spelling of the status key. -/
def message2Doc (pages : List (String × String)) (objects : List String)
    (errors : List (Bool × String × Nat × String)) : Json :=
  .obj [("pages", .obj (pages.map (fun kv => (kv.fst, .str kv.snd)))),
        ("objects", .arr (objects.map .str)),
        ("errors", .arr (errors.map
          (fun e => errorContextDoc e.1 e.2.1 e.2.2.1 e.2.2.2)))]

/-! ## Concrete URL values

The parsed forms of the URL strings in the repository's tests
(src/lib.rs lines 204-229) and the inputs of the counterexamples. -/

/-- `parse("https://www.baz.com:90/foo?bar=10")`. -/
def srcUrl : Url := ⟨"https", false, some "www.baz.com", some 90, "/foo", some "bar=10"⟩

/-- `parse("https://fiz.net")`. -/
def fizTarget : Url := ⟨"https", false, some "fiz.net", none, "/", none⟩

/-- `parse("https://baz.net:9090")`. -/
def bazPortTarget : Url := ⟨"https", false, some "baz.net", some 9090, "/", none⟩

/-- `parse("http://baz.net")`. -/
def httpTarget : Url := ⟨"http", false, some "baz.net", none, "/", none⟩

/-- `parse("https://fiz.net:90/foo?bar=10")`. -/
def fizExpected : Url := ⟨"https", false, some "fiz.net", some 90, "/foo", some "bar=10"⟩

/-- `parse("https://baz.net:9090/foo?bar=10")`. -/
def bazPortExpected : Url := ⟨"https", false, some "baz.net", some 9090, "/foo", some "bar=10"⟩

/-- `parse("http://baz.net:90/foo?bar=10")`. -/
def httpExpected : Url := ⟨"http", false, some "baz.net", some 90, "/foo", some "bar=10"⟩

/-- `parse("mailto:a@b")`: cannot-be-a-base, no host. -/
def mailtoUrl : Url := ⟨"mailto", true, none, none, "a@b", none⟩

/-- `parse("file:///x")`: the empty file host is normalized away, so
`host()` reports none while the scheme is special. -/
def fileUrl : Url := ⟨"file", false, none, none, "/x", none⟩

/-! ## Helper lemmas about the rewriter's three steps -/

theorem set_host_some_ok {u : Url} {h : String} {u2 : Url}
    (he : u.set_host (some h) = .ok u2) :
    u2 = { u with host := some h } := by
  simp only [Url.set_host] at he
  split at he
  · exact absurd he (by simp)
  · split at he
    · exact absurd he (by simp)
    · exact (Except.ok.inj he).symm

theorem hostStep_ok {src dest s1 : Url} (he : hostStep src dest = .ok s1) :
    (dest.host = none ∧ s1 = src) ∨
    (∃ h, dest.host = some h ∧ s1 = { src with host := some h }) := by
  unfold hostStep at he
  cases hd : dest.host with
  | none =>
      rw [hd] at he
      exact Or.inl ⟨rfl, (Except.ok.inj he).symm⟩
  | some h =>
      rw [hd] at he
      exact Or.inr ⟨h, rfl, set_host_some_ok he⟩

theorem set_scheme_some {u : Url} {s : String} {u2 : Url}
    (he : u.set_scheme s = some u2) :
    u2 = { u with scheme := s } := by
  simp only [Url.set_scheme] at he
  split at he
  · split at he
    · exact absurd he (by simp)
    · exact (Option.some.inj he).symm
  · exact absurd he (by simp)

theorem set_port_some {u : Url} {p : Nat} {u2 : Url}
    (he : u.set_port (some p) = some u2) :
    u2 = { u with
           port := (if default_port u.scheme = some p then none else some p) } := by
  simp only [Url.set_port] at he
  split at he
  · exact absurd he (by simp)
  · split at he <;> rename_i hdef
    · rw [if_pos hdef]
      exact (Option.some.inj he).symm
    · rw [if_neg hdef]
      exact (Option.some.inj he).symm

theorem set_port_some_succeeds {u : Url} {p : Nat}
    (hh : u.host ≠ none) (hf : u.scheme ≠ "file") :
    u.set_port (some p) =
      some { u with
             port := (if default_port u.scheme = some p then none else some p) } := by
  simp only [Url.set_port]
  rw [if_neg (by simp [hh, hf])]
  split <;> rfl

theorem portStep_none {u dest : Url} (hp : dest.port = none) :
    portStep u dest = u := by
  simp only [portStep, hp]

theorem portStep_fields (u dest : Url) :
    (portStep u dest).scheme = u.scheme ∧
    (portStep u dest).host = u.host ∧
    (portStep u dest).path = u.path ∧
    (portStep u dest).query = u.query ∧
    (portStep u dest).cannot_be_a_base = u.cannot_be_a_base := by
  unfold portStep
  split
  · simp
  · split
    · simp
    · rename_i he
      rw [set_port_some he]
      split <;> simp

theorem portStep_some_ok {u dest : Url} {p : Nat} (hp : dest.port = some p)
    (hh : u.host ≠ none) (hf : u.scheme ≠ "file") :
    portStep u dest =
      { u with
        port := (if default_port u.scheme = some p then none else some p) } := by
  simp only [portStep, hp, set_port_some_succeeds hh hf]

theorem portStep_port_none {u dest : Url} (hp : dest.port = none) :
    (portStep u dest).port = u.port := by
  rw [portStep_none hp]

/-- Decomposition of `replace_host`'s success path into its three steps. -/
theorem replace_host_ok_iff (src dest u : Url) :
    replace_host src dest = .ok u ↔
    ∃ s1 s2, hostStep src dest = .ok s1 ∧
      s1.set_scheme dest.scheme = some s2 ∧ u = portStep s2 dest := by
  unfold replace_host
  constructor
  · intro he
    split at he
    · exact absurd he (by simp)
    · rename_i s1 h1
      split at he
      · exact absurd he (by simp)
      · rename_i s2 h2
        exact ⟨s1, s2, h1, h2, (RunResult.ok.inj he).symm⟩
  · rintro ⟨s1, s2, h1, h2, rfl⟩
    simp only [h1, h2]

theorem hostStep_error {src dest : Url} {e : ParseError}
    (he : hostStep src dest = .error e) :
    ∃ h, dest.host = some h ∧ src.set_host (some h) = .error e := by
  unfold hostStep at he
  cases hd : dest.host with
  | none => rw [hd] at he; exact absurd he (by simp)
  | some h => rw [hd] at he; exact ⟨h, rfl, he⟩

theorem wf_explicit_port {dest : Url} {p : Nat} (hwf : dest.wf = true)
    (hp : dest.port = some p) :
    dest.host ≠ none ∧ dest.scheme ≠ "file" ∧
      default_port dest.scheme ≠ some p := by
  rw [Url.wf, hp] at hwf
  simp only [Bool.and_eq_true, decide_eq_true_eq,
    Option.isSome_iff_ne_none] at hwf
  exact ⟨hwf.1.1.1, hwf.1.1.2, hwf.1.2⟩

instance (ε α : Type) [DecidableEq ε] [DecidableEq α] :
    DecidableEq (Except ε α) := fun a b =>
  match a, b with
  | .error e1, .error e2 =>
      if h : e1 = e2 then .isTrue (by rw [h]) else .isFalse (by simp [h])
  | .error _, .ok _ => .isFalse (by simp)
  | .ok _, .error _ => .isFalse (by simp)
  | .ok a1, .ok a2 =>
      if h : a1 = a2 then .isTrue (by rw [h]) else .isFalse (by simp [h])

/-! ## The claims about the authority rewriter -/

/-- C2: whenever `replace_host src dest` returns a URL, that URL's scheme
is `dest`'s scheme and its path and query are `src`'s; its host is
`dest`'s host when `dest` has one, and `src`'s untouched host when
`dest` has none. -/
theorem replace_host_preserves_components (src dest u : Url)
    (hok : replace_host src dest = .ok u) :
    u.scheme = dest.scheme ∧ u.path = src.path ∧ u.query = src.query ∧
    (∀ h, dest.host = some h → u.host = some h) ∧
    (dest.host = none → u.host = src.host) := by
  obtain ⟨s1, s2, h1, h2, rfl⟩ := (replace_host_ok_iff src dest u).1 hok
  obtain rfl := set_scheme_some h2
  rcases hostStep_ok h1 with ⟨hd, rfl⟩ | ⟨h, hd, rfl⟩
  · refine ⟨(portStep_fields _ _).1, (portStep_fields _ _).2.2.1,
      (portStep_fields _ _).2.2.2.1, fun hx hh => ?_, fun _ => (portStep_fields _ _).2.1⟩
    rw [hd] at hh
    cases hh
  · refine ⟨(portStep_fields _ _).1, (portStep_fields _ _).2.2.1,
      (portStep_fields _ _).2.2.2.1, fun hx hh => ?_, fun hn => ?_⟩
    · rw [hd] at hh
      cases hh
      exact (portStep_fields _ _).2.1
    · rw [hd] at hn
      cases hn

/-- Witness for C2 on the repository's first test vector. -/
theorem replace_host_preserves_components_witness :
    fizExpected.scheme = fizTarget.scheme ∧ fizExpected.path = srcUrl.path ∧
    fizExpected.query = srcUrl.query ∧ fizExpected.host = some "fiz.net" := by
  have h := replace_host_preserves_components srcUrl fizTarget fizExpected (by decide)
  exact ⟨h.1, h.2.1, h.2.2.1, h.2.2.2.1 "fiz.net" (by decide)⟩

/-- C3 counterexample: on the parsed inputs `mailto:a@b` (no host,
cannot-be-a-base) and `file:///x` (no host reported, special scheme),
`replace_host` neither returns the error arm nor a URL: setting the host
is never attempted (so never rejected), yet the
`set_scheme(...).unwrap()` panics because the hostless URL cannot take
the special scheme `file`.  This refutes "it never fails or aborts for
any other reason". -/
theorem replace_host_can_abort_counterexample :
    replace_host mailtoUrl fileUrl = .panicked ∧
    hostStep mailtoUrl fileUrl = .ok mailtoUrl := by decide

/-- C3 (amended): `replace_host` returns the error arm only when setting
`dest`'s host on `src` is rejected (and raises exactly that parse
error); when the host step and the scheme assignment both go through it
returns a URL normally — the port assignment never fails or aborts it;
but it may abort (panic) when assigning `dest`'s scheme to the URL left
by the host step is rejected. -/
theorem replace_host_failure_modes (src dest : Url) :
    (∀ e, replace_host src dest = .err e →
      ∃ h, dest.host = some h ∧ src.set_host (some h) = .error e) ∧
    (replace_host src dest = .panicked →
      ∃ s1, hostStep src dest = .ok s1 ∧ s1.set_scheme dest.scheme = none) ∧
    (∀ s1 s2, hostStep src dest = .ok s1 → s1.set_scheme dest.scheme = some s2 →
      replace_host src dest = .ok (portStep s2 dest)) := by
  refine ⟨fun e he => ?_, fun he => ?_, fun s1 s2 h1 h2 => ?_⟩
  · unfold replace_host at he
    split at he
    · rename_i e2 h1
      cases he
      exact hostStep_error h1
    · split at he <;> exact absurd he (by simp)
  · unfold replace_host at he
    split at he
    · exact absurd he (by simp)
    · rename_i s1 h1
      split at he
      · exact ⟨s1, h1, by assumption⟩
      · exact absurd he (by simp)
  · unfold replace_host
    simp only [h1, h2]

/-- Witness for C3 (amended): the error conjunct at
`(mailto:a@b, https://fiz.net)`, the panic conjunct at
`(mailto:a@b, file:///x)`, and the success conjunct at the first test
vector. -/
theorem replace_host_failure_modes_witness :
    (∃ h, fizTarget.host = some h ∧
      mailtoUrl.set_host (some h) = .error .SetHostOnCannotBeABaseUrl) ∧
    (∃ s1, hostStep mailtoUrl fileUrl = .ok s1 ∧
      s1.set_scheme fileUrl.scheme = none) ∧
    replace_host srcUrl fizTarget = .ok (portStep fizExpected fizTarget) := by
  refine ⟨(replace_host_failure_modes mailtoUrl fizTarget).1 _ (by decide),
    (replace_host_failure_modes mailtoUrl fileUrl).2.1 (by decide),
    (replace_host_failure_modes srcUrl fizTarget).2.2 fizExpected fizExpected
      (by decide) (by decide)⟩

/-- C4: on a successfully rewritten URL, the port is `dest`'s port
whenever `dest` (a parsed URL, hence with no default port reported)
carries an explicit port, and `src`'s original port — including none —
when `dest` carries none. -/
theorem replace_host_port_policy (src dest u : Url) (hwf : dest.wf = true)
    (hok : replace_host src dest = .ok u) :
    (∀ p, dest.port = some p → u.port = some p) ∧
    (dest.port = none → u.port = src.port) := by
  obtain ⟨s1, s2, h1, h2, rfl⟩ := (replace_host_ok_iff src dest u).1 hok
  obtain rfl := set_scheme_some h2
  constructor
  · intro p hp
    obtain ⟨hh, hnf, hnd⟩ := wf_explicit_port hwf hp
    obtain ⟨h, hhd⟩ := Option.ne_none_iff_exists'.1 hh
    have hs1 : s1.host = some h := by
      rcases hostStep_ok h1 with ⟨hd, rfl⟩ | ⟨h2x, hd, rfl⟩
      · rw [hhd] at hd; cases hd
      · rw [hhd] at hd
        cases hd
        rfl
    rw [@portStep_some_ok { s1 with scheme := dest.scheme } dest p hp
      (by simp [hs1]) hnf]
    simp [hnd]
  · intro hp
    rw [portStep_port_none hp]
    rcases hostStep_ok h1 with ⟨hd, rfl⟩ | ⟨h, hd, rfl⟩ <;> rfl

/-- Witness for C4: the explicit-port conjunct on the second test vector
and the no-port conjunct on the third. -/
theorem replace_host_port_policy_witness :
    bazPortExpected.port = some 9090 ∧ httpExpected.port = srcUrl.port :=
  ⟨(replace_host_port_policy srcUrl bazPortTarget bazPortExpected (by decide)
      (by decide)).1 9090 (by decide),
   (replace_host_port_policy srcUrl httpTarget httpExpected (by decide)
      (by decide)).2 (by decide)⟩

/-- C6: whenever `replace_host` succeeds on a parsed destination, its
result is exactly that of the reference algorithm of the spec that
substitutes host first, then scheme, then port. -/
theorem replace_host_refines_spec (src dest u : Url) (hwf : dest.wf = true)
    (hok : replace_host src dest = .ok u) :
    u = spec_replace_host src dest := by
  obtain ⟨s1, s2, h1, h2, rfl⟩ := (replace_host_ok_iff src dest u).1 hok
  obtain rfl := set_scheme_some h2
  cases hp : dest.port with
  | none =>
      rw [portStep_none hp]
      rcases hostStep_ok h1 with ⟨hd, rfl⟩ | ⟨h, hd, rfl⟩ <;>
        simp [spec_replace_host, hd, hp]
  | some p =>
      obtain ⟨hh, hnf, hnd⟩ := wf_explicit_port hwf hp
      obtain ⟨h, hhd⟩ := Option.ne_none_iff_exists'.1 hh
      have hs1 : s1 = { src with host := some h } := by
        rcases hostStep_ok h1 with ⟨hd, rfl⟩ | ⟨h2x, hd, rfl⟩
        · rw [hhd] at hd; cases hd
        · rw [hhd] at hd
          cases hd
          rfl
      rw [@portStep_some_ok { s1 with scheme := dest.scheme } dest p hp
        (by simp [hs1]) hnf, hs1]
      simp [spec_replace_host, hhd, hp, hnd]

/-- Witness for C6 on the second test vector. -/
theorem replace_host_refines_spec_witness :
    bazPortExpected = spec_replace_host srcUrl bazPortTarget :=
  replace_host_refines_spec srcUrl bazPortTarget bazPortExpected (by decide)
    (by decide)

/-- C7: the three concrete rewrites of the repository's tests (src/lib.rs
lines 204-229), on the parsed forms of the URL strings involved. -/
theorem replace_host_test_vectors :
    replace_host srcUrl fizTarget = .ok fizExpected ∧
    replace_host srcUrl bazPortTarget = .ok bazPortExpected ∧
    replace_host srcUrl httpTarget = .ok httpExpected := by decide

/-- C9: a destination URL written with its scheme's default port parses
with `port()` reporting none, so `replace_host` treats it as carrying no
explicit port and preserves `src`'s original port in any successful
result. -/
theorem default_port_parsed_as_none (src : Url) (scheme : String)
    (cbab : Bool) (host : Option String) (p : Nat) (path : String)
    (query : Option String) (hdef : default_port scheme = some p) :
    (parsed_url scheme cbab host (some p) path query).port = none ∧
    ∀ u, replace_host src (parsed_url scheme cbab host (some p) path query) = .ok u →
      u.port = src.port := by
  have hport : (parsed_url scheme cbab host (some p) path query).port = none := by
    simp [parsed_url, parse_port, hdef]
  refine ⟨hport, fun u hok => ?_⟩
  obtain ⟨s1, s2, h1, h2, rfl⟩ := (replace_host_ok_iff _ _ u).1 hok
  rw [portStep_port_none hport, set_scheme_some h2]
  rcases hostStep_ok h1 with ⟨hd, rfl⟩ | ⟨h, hd, rfl⟩ <;> rfl

/-- Witness for C9: `parse("https://fiz.net:443")` (written default port
443) reports no port, and rewriting the first test vector's source
against it keeps port 90. -/
theorem default_port_parsed_as_none_witness :
    (parsed_url "https" false (some "fiz.net") (some 443) "/" none).port = none ∧
    fizExpected.port = srcUrl.port :=
  ⟨(default_port_parsed_as_none srcUrl "https" false (some "fiz.net") 443 "/"
      none (by decide)).1,
   (default_port_parsed_as_none srcUrl "https" false (some "fiz.net") 443 "/"
      none (by decide)).2 fizExpected (by decide)⟩

/-- C10: when `dest` carries an explicit port but `set_port` rejects it on
the URL produced by the host and scheme substitutions, `replace_host`
still returns the ok arm, with the port left as `src`'s: the discarded
`Result` of `set_port` never surfaces. -/
theorem set_port_failure_discarded (src dest s1 s2 : Url) (p : Nat)
    (h1 : hostStep src dest = .ok s1)
    (h2 : s1.set_scheme dest.scheme = some s2)
    (hp : dest.port = some p)
    (hfail : s2.set_port (some p) = none) :
    replace_host src dest = .ok s2 ∧ s2.port = src.port := by
  constructor
  · rw [replace_host_ok_iff src dest s2]
    refine ⟨s1, s2, h1, h2, ?_⟩
    simp only [portStep, hp, hfail]
  · rw [set_scheme_some h2]
    rcases hostStep_ok h1 with ⟨hd, rfl⟩ | ⟨h, hd, rfl⟩ <;> rfl

/-- A URL value with no host (as a hostless non-special URL such as
`bar:/p` yields). -/
def barNoHost : Url := ⟨"bar", false, none, none, "/p", none⟩

/-- A `url::Url` value carrying an explicit port but no host — the shape
that makes the later `set_port` fail; `Url::parse` alone cannot build
it, which is why the discarded failure goes unobserved in the
repository's tests. -/
def fooPortTarget : Url := ⟨"foo", false, none, some 9090, "/", none⟩

/-- The rewrite of `barNoHost` against `fooPortTarget`: scheme swapped,
port assignment rejected and discarded. -/
def fooNoHostResult : Url := ⟨"foo", false, none, none, "/p", none⟩

/-- Witness for C10: the port 9090 of the destination cannot be set on the
hostless rewritten URL, yet the call returns the ok arm with the
source's (absent) port. -/
theorem set_port_failure_discarded_witness :
    replace_host barNoHost fooPortTarget = .ok fooNoHostResult ∧
    fooNoHostResult.port = barNoHost.port :=
  set_port_failure_discarded barNoHost fooPortTarget barNoHost fooNoHostResult
    9090 (by decide) (by decide) (by decide) (by decide)

/-! ## The claims about the outcome model -/

/-- C1: the conversion of a `ServiceResult` into the two-armed result maps
`Ok(r)` to the ok arm with exactly `r`, `Err(s, d)` to the error arm
`(s, Some(Ok(d)))`, `Fail(s, None)` to `(s, None)` and `Fail(s, Some(e))`
to `(s, Some(Err(e)))`, for every value and every instantiation of the
four type parameters. -/
theorem serviceResult_into_mapping (R E S D : Type) (r : R) (s : S) (e : E)
    (d : D) :
    (ServiceResult.Ok r : ServiceResult R E S D).into = .Ok r ∧
    (ServiceResult.Err s e : ServiceResult R E S D).into =
      .Err (s, some (.Ok e)) ∧
    (ServiceResult.Fail s none : ServiceResult R E S D).into =
      .Err (s, none) ∧
    (ServiceResult.Fail s (some d) : ServiceResult R E S D).into =
      .Err (s, some (.Err d)) :=
  ⟨rfl, rfl, rfl, rfl⟩

/-- C5: `server_error()` yields the service-level error for both `Err` and
`Fail` (with or without a deserialization error) and none for `Ok`;
`service_error()` yields the parsed domain error for `Err` only, and
none for `Ok` and for `Fail` even when `Fail` carries a deserialization
error. -/
theorem serviceResult_accessors (R E S D : Type) (r : R) (s : S) (e : E)
    (d : D) :
    (ServiceResult.Ok r : ServiceResult R E S D).server_error = none ∧
    (ServiceResult.Err s e : ServiceResult R E S D).server_error = some s ∧
    (ServiceResult.Fail s none : ServiceResult R E S D).server_error = some s ∧
    (ServiceResult.Fail s (some d) : ServiceResult R E S D).server_error = some s ∧
    (ServiceResult.Ok r : ServiceResult R E S D).service_error = none ∧
    (ServiceResult.Err s e : ServiceResult R E S D).service_error = some e ∧
    (ServiceResult.Fail s none : ServiceResult R E S D).service_error = none ∧
    (ServiceResult.Fail s (some d) : ServiceResult R E S D).service_error = none :=
  ⟨rfl, rfl, rfl, rfl, rfl, rfl, rfl, rfl⟩

/-! ## The claim about the sample payload shapes -/

theorem message_deserialize_eq (alt : Bool) (status : Nat)
    (hs : status < 65536) (ts sv ms : String) :
    Message.deserialize (messageDoc alt status ts sv ms) =
      some ⟨status, ts, sv, ms⟩ := by
  cases alt <;>
    simp +decide [Message.deserialize, messageDoc, statusKey, getUnique,
      asU16, asStr, hs]

theorem errorContext_deserialize_eq (alt : Bool) (rq : String) (status : Nat)
    (hs : status < 65536) (ms : String) :
    ErrorContext.deserialize (errorContextDoc alt rq status ms) =
      some ⟨rq, status, ms⟩ := by
  cases alt <;>
    simp +decide [ErrorContext.deserialize, errorContextDoc, statusKey,
      getUnique, asU16, asStr, hs]

theorem traverse_str_pairs (pages : List (String × String)) :
    traverseOption (fun kv => (asStr kv.snd).map (fun v => (kv.fst, v)))
      (pages.map (fun kv => (kv.fst, Json.str kv.snd))) = some pages := by
  induction pages with
  | nil => rfl
  | cons kv rest ih =>
      simp [traverseOption, asStr] at ih ⊢
      simp [ih]

theorem traverse_str_list (objects : List String) :
    traverseOption asStr (objects.map Json.str) = some objects := by
  induction objects with
  | nil => rfl
  | cons x rest ih => simp [traverseOption, ih, asStr]

theorem traverse_error_docs (errors : List (Bool × String × Nat × String))
    (hb : ∀ e ∈ errors, e.2.2.1 < 65536) :
    traverseOption ErrorContext.deserialize
      (errors.map (fun e => errorContextDoc e.1 e.2.1 e.2.2.1 e.2.2.2)) =
      some (errors.map errorContextOf) := by
  induction errors with
  | nil => rfl
  | cons e rest ih =>
      obtain ⟨alt, rq, st, ms⟩ := e
      have h1 : st < 65536 := hb _ (List.mem_cons_self _ _)
      have h2 : ∀ e ∈ rest, e.2.2.1 < 65536 :=
        fun e he => hb e (List.mem_cons_of_mem _ he)
      simp [traverseOption, errorContext_deserialize_eq alt rq st h1 ms,
        ih h2, errorContextOf]

theorem message2_deserialize_eq (pages : List (String × String))
    (objects : List String) (errors : List (Bool × String × Nat × String))
    (hb : ∀ e ∈ errors, e.2.2.1 < 65536) :
    Message2.deserialize (message2Doc pages objects errors) =
      some ⟨pages, objects, errors.map errorContextOf⟩ := by
  simp +decide [Message2.deserialize, message2Doc, getUnique, asStrMap,
    asStrList, asErrors, traverse_str_pairs, traverse_str_list,
    traverse_error_docs errors hb]

/-- C8: deserializing a shape-A document recovers every `Message` field,
deserializing a shape-B document recovers every `Message2` field
(including each error's `requested`, `http_status` and `message`), with
the two spellings `http_status` and `httpStatus` of the status key
accepted identically (shape-B documents pick a spelling per error entry
and the result never depends on it). -/
theorem message_deserialize_roundtrip (status : Nat) (ts sv ms : String)
    (pages : List (String × String)) (objects : List String)
    (errors : List (Bool × String × Nat × String))
    (hs : status < 65536) (hb : ∀ e ∈ errors, e.2.2.1 < 65536) :
    Message.deserialize (messageDoc false status ts sv ms) =
      some ⟨status, ts, sv, ms⟩ ∧
    Message.deserialize (messageDoc true status ts sv ms) =
      some ⟨status, ts, sv, ms⟩ ∧
    Message.deserialize (messageDoc true status ts sv ms) =
      Message.deserialize (messageDoc false status ts sv ms) ∧
    Message2.deserialize (message2Doc pages objects errors) =
      some ⟨pages, objects, errors.map errorContextOf⟩ := by
  have h1 := message_deserialize_eq false status hs ts sv ms
  have h2 := message_deserialize_eq true status hs ts sv ms
  exact ⟨h1, h2, h2.trans h1.symm, message2_deserialize_eq pages objects errors hb⟩

/-- Witness for C8 at the repository's sample values (status 404,
timestamp "12341234", service "foo_service", message "sample_message",
and a shape-B document whose two error entries use the two spellings of
the status key). -/
theorem message_deserialize_roundtrip_witness :
    Message.deserialize (messageDoc false 404 "12341234" "foo_service"
      "sample_message") = some ⟨404, "12341234", "foo_service", "sample_message"⟩ ∧
    Message.deserialize (messageDoc true 404 "12341234" "foo_service"
      "sample_message") = some ⟨404, "12341234", "foo_service", "sample_message"⟩ ∧
    Message.deserialize (messageDoc true 404 "12341234" "foo_service"
      "sample_message") =
      Message.deserialize (messageDoc false 404 "12341234" "foo_service"
        "sample_message") ∧
    Message2.deserialize (message2Doc [("next", "p2")] ["obj1"]
      [(false, "sample_resource", 404, "sample_message"),
       (true, "sample_resource", 404, "sample_message")]) =
      some ⟨[("next", "p2")], ["obj1"],
        [⟨"sample_resource", 404, "sample_message"⟩,
         ⟨"sample_resource", 404, "sample_message"⟩]⟩ :=
  message_deserialize_roundtrip 404 "12341234" "foo_service" "sample_message"
    [("next", "p2")] ["obj1"]
    [(false, "sample_resource", 404, "sample_message"),
     (true, "sample_resource", 404, "sample_message")]
    (by decide) (by decide)

end Gateway
